import Mathlib

/-!
Verification of the real-time dashboard layer of the advanced-server-platform
repository: the WebSocket provider in `src/frontend/hooks/useWebSocket.tsx`
(Live Channel Client) and the polling loop in
`src/brainsait-website/public/enhanced-app.js` (Polling Aggregator).

The JavaScript/TypeScript source is shallowly embedded: JSON values become an
inductive type, the event handlers (`ws.onmessage`, `ws.onopen`, `ws.onclose`,
the `connect` constructor path, the React effect cleanup, `sendMessage`, the
`setInterval` tick and `updateMetrics` completion) become pure step functions
over explicit state records, and the asynchronous environment (frame arrival,
timer firing, fetch settlement) becomes an event alphabet fed to those step
functions.
-/

namespace AdvancedServerPlatform

/-- JSON values as delivered by `JSON.parse` / produced by the REST endpoints.
Numbers are modelled as integers (the payloads in the repository are counters
and identifiers). -/
inductive JValue where
  | str : String → JValue
  | num : Int → JValue
  | bool : Bool → JValue
  | null : JValue
  | obj : List (String × JValue) → JValue

/-- Property access `v.k` on a JavaScript object value, yielding `none` for
`undefined` (key absent, or the value is a primitive with no such own
property). Access on `null`/`undefined` themselves throws and is handled at
the call sites that can reach it. -/
def getOwn : JValue → String → Option JValue
  | .obj fs, k => List.lookup k fs
  | _, _ => none

/-- JavaScript string coercion of a value that may be `undefined`, as performed
by template literals and by rendering a toast message. -/
def showJS : Option JValue → String
  | none => "undefined"
  | some (.str s) => s
  | some (.num n) => toString n
  | some (.bool b) => cond b "true" "false"
  | some .null => "null"
  | some (.obj _) => "[object Object]"

mutual

/-- `JSON.stringify` on the embedded values (string escaping is not modelled;
the payloads sent by the dashboard contain plain text only). -/
def stringifyJ : JValue → String
  | .str s => "\"" ++ s ++ "\""
  | .num n => toString n
  | .bool b => cond b "true" "false"
  | .null => "null"
  | .obj fs => "\x7b" ++ stringifyFields fs ++ "\x7d"

/-- Serialise the comma-separated field list of a JSON object. -/
def stringifyFields : List (String × JValue) → String
  | [] => ""
  | [(k, v)] => "\"" ++ k ++ "\":" ++ stringifyJ v
  | (k, v) :: f :: fs => "\"" ++ k ++ "\":" ++ stringifyJ v ++ "," ++ stringifyFields (f :: fs)

end

namespace UseWebSocket

/-!
Embedding of `src/frontend/hooks/useWebSocket.tsx` (`WebSocketProvider`).
-/

/-- Severity of a `react-hot-toast` notification raised by the handlers:
`toast.success`, `toast.error`, or the bare `toast(title, warning icon)`
call used for warning alerts. -/
inductive ToastKind where
  | success
  | error
  | warning
deriving DecidableEq, Repr

/-- One user-facing notification: its severity and the rendered message. -/
structure Toast where
  kind : ToastKind
  text : String
deriving DecidableEq, Repr

/-- The React state owned by `WebSocketProvider`: `isConnected`, the `socket`
state variable (modelled by the id of the stored transport, if any), and the
shared `data` object. -/
structure ClientState where
  isConnected : Bool
  socket : Option Nat
  data : List (String × JValue)

/-- An inbound transport frame: either its payload fails `JSON.parse`
(`malformed`, carrying the raw text), or it parses to a JSON object with the
given top-level fields. -/
inductive InboundFrame where
  | malformed : String → InboundFrame
  | parsed : List (String × JValue) → InboundFrame

/-- The `console.error` line emitted by the `catch` block of `ws.onmessage`. -/
def parseErrorLog : String := "Failed to parse WebSocket message:"

/-- The notifications raised by the `new_alert` branch once `message.alert`
has been read into `alert`: `alert.type === critical` raises `toast.error`,
`alert.type === warning` raises the warning-icon toast, anything else falls
through to `toast.success`, each with `alert.title` as the message. -/
def alertToasts (alert : JValue) : List Toast :=
  match getOwn alert "type" with
  | some (.str "critical") => [⟨ToastKind.error, showJS (getOwn alert "title")⟩]
  | some (.str "warning") => [⟨ToastKind.warning, showJS (getOwn alert "title")⟩]
  | _ => [⟨ToastKind.success, showJS (getOwn alert "title")⟩]

/-- The kind-specific dispatch chain of `ws.onmessage` on a parsed message:
`agent_execution_complete` and `agent_execution_error` raise one templated
toast each, `new_alert` reads `message.alert` (throwing a TypeError, returned
as `Except.error`, when that field is `undefined` or `null`) and dispatches on
the alert severity, and any other kind raises nothing. -/
def dispatchToasts (msg : List (String × JValue)) : Except Unit (List Toast) :=
  match List.lookup "type" msg with
  | some (.str "agent_execution_complete") =>
      .ok [⟨ToastKind.success, "Agent " ++ showJS (List.lookup "agent_id" msg) ++ " completed task"⟩]
  | some (.str "agent_execution_error") =>
      .ok [⟨ToastKind.error, "Agent " ++ showJS (List.lookup "agent_id" msg) ++ " failed: " ++ showJS (List.lookup "error" msg)⟩]
  | some (.str "new_alert") =>
      match List.lookup "alert" msg with
      | none => .error ()
      | some .null => .error ()
      | some alert => .ok (alertToasts alert)
  | _ => .ok []

/-- The object spread `(...prev, ...message)` used by `setData`: every
top-level key of `message` shadows the entry of `prev`, all other keys of
`prev` are kept. With first-match `List.lookup` semantics, prepending the
message fields realises exactly that shadowing. -/
def mergeData (prev msg : List (String × JValue)) : List (String × JValue) :=
  msg ++ prev

/-- Result of running `ws.onmessage` on one frame: the provider state
afterwards, the toasts raised, the `console.error` lines logged, and the
parsed messages the handler body was invoked on (one entry when the frame
parsed, none when `JSON.parse` threw). -/
structure HandlerResult where
  state : ClientState
  toasts : List Toast
  logs : List String
  invoked : List (List (String × JValue))

/-- `ws.onmessage`: parse the frame; on success queue the shallow merge into
`data` and run the dispatch chain; a `JSON.parse` failure, or a TypeError
thrown inside the dispatch chain, is caught and logged. The merge is queued
by `setData` before the dispatch chain runs, so it survives a dispatch
exception. No branch touches `isConnected` or `socket`. -/
def onMessage (st : ClientState) (f : InboundFrame) : HandlerResult :=
  match f with
  | .malformed _ => ⟨st, [], [parseErrorLog], []⟩
  | .parsed msg =>
      let merged : ClientState := { st with data := mergeData st.data msg }
      match dispatchToasts msg with
      | .ok ts => ⟨merged, ts, [], [msg]⟩
      | .error _ => ⟨merged, [], [parseErrorLog], [msg]⟩

/-- Run `ws.onmessage` over a sequence of inbound frames in arrival order,
concatenating the toasts, logs and handler invocations of each frame. -/
def processFrames (st : ClientState) : List InboundFrame → HandlerResult
  | [] => ⟨st, [], [], []⟩
  | f :: fs =>
      let r := onMessage st f
      let rest := processFrames r.state fs
      ⟨rest.state, r.toasts ++ rest.toasts, r.logs ++ rest.logs, r.invoked ++ rest.invoked⟩

/-- Projection of the frame a handler invocation would be given: the parsed
message for a well-formed frame, nothing for a malformed one. -/
def parsedOf : InboundFrame → Option (List (String × JValue))
  | .malformed _ => none
  | .parsed msg => some msg

/-- The `readyState` of a DOM `WebSocket` transport. -/
inductive ReadyState where
  | connecting
  | opened
  | closing
  | closed
deriving DecidableEq, Repr

/-- `sendMessage(message)`: the guard `socket && socket.readyState ===
WebSocket.OPEN` sends `JSON.stringify(message)` on the transport and otherwise
does nothing; the returned list is the frames actually transmitted. The
function reads React state only, so it mutates nothing in either branch. -/
def sendMessage (socket : Option ReadyState) (message : JValue) : List String :=
  match socket with
  | some ReadyState.opened => [stringifyJ message]
  | _ => []

/-- Lifecycle state of one `WebSocketProvider` instance: the React state
(`isConnected`, whether the `socket` state variable holds a transport), an
instrumentation counter of how many transports `new WebSocket(url)` has
constructed, and the delays (in milliseconds) of the reconnect timers that
have been scheduled by `setTimeout` and have not yet fired. -/
structure ProvState where
  isConnected : Bool
  hasSocket : Bool
  transportsOpened : Nat
  reconnectTimers : List Nat

/-- The events driving a provider instance: a call of `connect()` (with the
environment choosing whether `new WebSocket(url)` returns a transport or
throws synchronously), the transport firing `onopen`, `onclose` or `onerror`,
the React effect cleanup running at component teardown, and a pending
reconnect timer firing. -/
inductive ProvEvent where
  | connectCall : Bool → ProvEvent
  | openSignal : ProvEvent
  | closeSignal : ProvEvent
  | errorSignal : ProvEvent
  | cleanup : ProvEvent
  | timerFire : ProvEvent

/-- One step of the provider lifecycle, transcribing the handlers of
`useWebSocket.tsx`:
* `connect()` with a working constructor builds a transport and installs its
  handlers — it checks no existing state, so it runs identically whether or
  not a connection is already up;
* `connect()` with a throwing constructor logs and schedules
  `setTimeout(connect, 5000)`;
* `onopen` sets `isConnected` and stores the socket (plus a success toast);
* `onclose` clears both, raises an error toast, and unconditionally schedules
  `setTimeout(connect, 3000)` — there is no flag distinguishing an explicit
  teardown close from a transport drop;
* `onerror` only logs and toasts;
* the effect cleanup calls `socket.close()` when a socket is stored, which
  changes no React state itself (the close is delivered later as
  `closeSignal`) and cancels no timer;
* a timer firing consumes the earliest pending timer and runs `connect()`
  (constructor succeeding). -/
def provStep (st : ProvState) : ProvEvent → ProvState
  | .connectCall true => { st with transportsOpened := st.transportsOpened + 1 }
  | .connectCall false => { st with reconnectTimers := st.reconnectTimers ++ [5000] }
  | .openSignal => { st with isConnected := true, hasSocket := true }
  | .closeSignal =>
      { st with isConnected := false, hasSocket := false,
                reconnectTimers := st.reconnectTimers ++ [3000] }
  | .errorSignal => st
  | .cleanup => st
  | .timerFire =>
      match st.reconnectTimers with
      | [] => st
      | _ :: rest =>
          { st with reconnectTimers := rest, transportsOpened := st.transportsOpened + 1 }

/-- The provider state at mount, before the effect calls `connect()`. -/
def provInit : ProvState :=
  { isConnected := false, hasSocket := false, transportsOpened := 0, reconnectTimers := [] }

/-- Run the provider through a sequence of lifecycle events. -/
def runProv (st : ProvState) (es : List ProvEvent) : ProvState :=
  es.foldl provStep st

end UseWebSocket

namespace EnhancedApp

/-!
Embedding of the polling loop of `src/brainsait-website/public/enhanced-app.js`:
`startRealTimeUpdates` arms `setInterval(() => this.updateMetrics(), 5000)`,
and `updateMetrics` fetches `/api/metrics` and reconciles the result into
`this.metrics` / `this.isConnected`.
-/

/-- JavaScript truthiness of a JSON value, as tested by `data.metrics || ...`:
`null`, `false`, `0` and the empty string are falsy. -/
def jsFalsy : JValue → Bool
  | .null => true
  | .bool b => !b
  | .num n => n == 0
  | .str s => s == ""
  | .obj _ => false

/-- The JavaScript `x || d` default: `d` when `x` is `undefined` or falsy,
otherwise `x` itself. -/
def jsOr (x : Option JValue) (d : JValue) : JValue :=
  match x with
  | none => d
  | some v => if jsFalsy v then d else v

/-- How one `updateMetrics` call settles: the response was ok and its body
parsed (`ok body`), the response arrived with a non-ok status (`notOk`), or
`fetch`/`response.json()` threw (`netErr`). -/
inductive FetchOutcome where
  | ok : JValue → FetchOutcome
  | notOk : FetchOutcome
  | netErr : FetchOutcome

/-- The dashboard state touched by the polling loop: the stored metrics
snapshot `this.metrics`, the connectivity flag `this.isConnected`, and an
instrumentation counter of how many `updateMetrics` calls are currently in
flight (started and not yet settled). -/
structure AppState where
  metrics : JValue
  isConnected : Bool
  inFlight : Nat

/-- The events driving the polling loop: an interval tick (which invokes
`updateMetrics()`, starting a fetch), and the settlement of one in-flight
`updateMetrics` call with the given outcome. -/
inductive AppEvent where
  | tick : AppEvent
  | settle : FetchOutcome → AppEvent

/-- The state reconciliation performed when an `updateMetrics` call settles,
transcribing `updateMetrics`: on an ok response, `this.metrics = data.metrics
|| ()` and `this.isConnected = true`; on a non-ok response the body of the
`if` is skipped and nothing is written; on a thrown error the `catch` sets
`this.isConnected = false` and logs, leaving `this.metrics` untouched. -/
def updateMetricsSettle (st : AppState) : FetchOutcome → AppState
  | .ok body => { st with metrics := jsOr (getOwn body "metrics") (.obj []), isConnected := true }
  | .notOk => st
  | .netErr => { st with isConnected := false }

/-- One step of the polling loop. A tick calls `this.updateMetrics()`
unconditionally — the interval callback contains no in-flight guard — so every
tick starts one more fetch; a settlement finishes one fetch and reconciles its
outcome. -/
def appStep (st : AppState) : AppEvent → AppState
  | .tick => { st with inFlight := st.inFlight + 1 }
  | .settle o => updateMetricsSettle { st with inFlight := st.inFlight - 1 } o

/-- The dashboard state when `startRealTimeUpdates` arms the interval:
`this.metrics` starts as the empty object and no fetch is in flight. -/
def appInit : AppState :=
  { metrics := JValue.obj [], isConnected := false, inFlight := 0 }

/-- Run the polling loop through a sequence of tick/settlement events. -/
def runApp (st : AppState) (es : List AppEvent) : AppState :=
  es.foldl appStep st

end EnhancedApp

open UseWebSocket EnhancedApp

/-- The concrete frame of the critical-alert scenario. -/
def criticalAlertFrame : InboundFrame :=
  InboundFrame.parsed
    [("type", JValue.str "new_alert"),
     ("alert", JValue.obj [("type", JValue.str "critical"), ("title", JValue.str "X")])]

/-- First-match lookup distributes over list append: a key bound in the front
list takes its front binding, otherwise the back list is consulted. -/
theorem lookup_append_eq (k : String) (l1 l2 : List (String × JValue)) :
    List.lookup k (l1 ++ l2) =
      (match List.lookup k l1 with
       | some v => some v
       | none => List.lookup k l2) := by
  induction l1 with
  | nil => rfl
  | cons p l1 ih =>
      obtain ⟨a, v⟩ := p
      by_cases h : k = a
      · subst h
        simp [List.lookup]
      · simp [List.lookup, beq_false_of_ne h, ih]

/-- Claim C1 (counterexample): after the component teardown cleanup closes the
live socket, the transport-level close signal that this produces still
schedules a reconnect timer — the claim that no further reconnect attempt is
ever scheduled after an explicit disconnect is false on this trace. -/
theorem reconnect_scheduled_after_explicit_teardown :
    (runProv provInit
      [ProvEvent.connectCall true, ProvEvent.openSignal,
       ProvEvent.cleanup, ProvEvent.closeSignal]).reconnectTimers ≠ [] := by
  decide

/-- Claim C1 (amended): from any provider state, running the effect cleanup
and then receiving the transport close signal appends a 3000 ms reconnect
timer — the `onclose` handler schedules `setTimeout(connect, 3000)`
unconditionally and the cleanup cancels nothing, so an explicit disconnect is
always followed by a reconnect attempt once the close signal arrives. -/
theorem closeSignal_after_cleanup_appends_timer (st : ProvState) :
    (provStep (provStep st ProvEvent.cleanup) ProvEvent.closeSignal).reconnectTimers =
      st.reconnectTimers ++ [3000] := rfl

/-- Claim C2 (counterexample): two `connect()` calls in a row from the initial
state construct two underlying transports, not one — `connect` has no
already-Connecting/Connected guard. -/
theorem connect_twice_opens_two_transports :
    (runProv provInit
      [ProvEvent.connectCall true, ProvEvent.connectCall true]).transportsOpened = 2 ∧
    (2 : Nat) ≠ 1 := by
  decide

/-- Claim C2 (amended): every `connect()` call whose constructor succeeds
opens one more transport, whatever the current connection state — the call is
never a no-op. -/
theorem connectCall_unconditionally_opens_transport (st : ProvState) :
    (provStep st (ProvEvent.connectCall true)).transportsOpened =
      st.transportsOpened + 1 := rfl

/-- Claim C3: when an `updateMetrics` call settles with a failure — a non-ok
response or a thrown fetch/parse error — the stored metrics payload is left
exactly as it was; the only field a failure may write is the connectivity
flag (set to false by the `catch` branch). -/
theorem fetch_failure_preserves_metrics (st : AppState) :
    appStep st (AppEvent.settle FetchOutcome.notOk) =
      { st with inFlight := st.inFlight - 1 } ∧
    appStep st (AppEvent.settle FetchOutcome.netErr) =
      { st with inFlight := st.inFlight - 1, isConnected := false } :=
  ⟨rfl, rfl⟩

/-- Claim C4 (counterexample): with the first fetch still in flight, the next
interval tick starts a second concurrent fetch — after two ticks and no
settlement, two fetches are in flight, refuting the at-most-one-in-flight
claim. -/
theorem second_tick_starts_overlapping_fetch :
    (runApp appInit [AppEvent.tick, AppEvent.tick]).inFlight = 2 ∧ 1 < 2 := by
  decide

/-- Claim C4 (amended): every interval tick starts one more fetch regardless
of how many are already pending — the interval callback calls
`updateMetrics()` with no in-flight guard, so ticks are never skipped and
concurrent fetches for the same resource can overlap. -/
theorem tick_always_starts_fetch (st : AppState) :
    appStep st AppEvent.tick = { st with inFlight := st.inFlight + 1 } := rfl

/-- Claim C5: a frame whose payload fails to parse is logged and dropped: the
provider state (shared data, connectivity flag and socket alike) is
unchanged, no toast is raised, and the handler body is never reached. -/
theorem malformed_frame_logged_and_dropped (st : ClientState) (raw : String) :
    onMessage st (InboundFrame.malformed raw) =
      { state := st, toasts := [], logs := [parseErrorLog], invoked := [] } := rfl

/-- Claim C6: processing the critical-alert frame raises exactly one
error-severity toast titled X, and leaves the connection state (`isConnected`
and the stored socket) untouched. -/
theorem critical_alert_raises_single_error_toast (st : ClientState) :
    (onMessage st criticalAlertFrame).toasts = [⟨ToastKind.error, "X"⟩] ∧
    (onMessage st criticalAlertFrame).state.isConnected = st.isConnected ∧
    (onMessage st criticalAlertFrame).state.socket = st.socket :=
  ⟨rfl, rfl, rfl⟩

/-- Claim C7 (counterexample): a connection attempt that fails in the
constructor retries via `setTimeout(connect, 5000)` — a 5-second delay, not
the constant 3-second delay the claim asserts for every failed attempt. -/
theorem constructor_failure_retries_after_5000ms :
    (runProv provInit [ProvEvent.connectCall false]).reconnectTimers = [5000] ∧
    (5000 : Nat) ≠ 3000 := by
  decide

/-- Claim C7 (amended): the retry delays are fixed and state-independent — a
transport-level close always schedules exactly one 3000 ms reconnect timer
(no jitter, no attempt cap), while a synchronous constructor failure
schedules a 5000 ms retry. -/
theorem reconnect_delays_are_fixed (st : ProvState) :
    (provStep st ProvEvent.closeSignal).reconnectTimers = st.reconnectTimers ++ [3000] ∧
    (provStep st (ProvEvent.connectCall false)).reconnectTimers =
      st.reconnectTimers ++ [5000] :=
  ⟨rfl, rfl⟩

/-- Claim C8: over any sequence of inbound frames, the handler body is invoked
exactly once per well-formed frame, synchronously, in arrival order — the
invocation trace of the fold equals the parsed frames in their arrival
order, with no queueing, batching or reordering. -/
theorem handler_invocations_in_arrival_order (st : ClientState) (fs : List InboundFrame) :
    (processFrames st fs).invoked = fs.filterMap parsedOf := by
  induction fs generalizing st with
  | nil => rfl
  | cons f fs ih =>
      cases f with
      | malformed raw => simp [processFrames, onMessage, parsedOf, ih]
      | parsed msg =>
          cases h : dispatchToasts msg with
          | ok ts => simp [processFrames, onMessage, h, parsedOf, ih]
          | error e => simp [processFrames, onMessage, h, parsedOf, ih]

/-- Claim C9: `sendMessage` transmits the JSON-serialised message exactly when
a socket is stored and its readyState is OPEN; with no socket, or a socket in
any other readyState, nothing is sent and nothing is changed. -/
theorem sendMessage_only_when_open (message : JValue) :
    sendMessage none message = [] ∧
    sendMessage (some ReadyState.connecting) message = [] ∧
    sendMessage (some ReadyState.closing) message = [] ∧
    sendMessage (some ReadyState.closed) message = [] ∧
    sendMessage (some ReadyState.opened) message = [stringifyJ message] :=
  ⟨rfl, rfl, rfl, rfl, rfl⟩

/-- Claim C10: processing any successfully parsed frame shallow-merges it
into the shared data — each top-level key of the message takes the message
value, every other key keeps its previous value — for every message,
including unknown kinds and frames whose kind-specific dispatch throws. -/
theorem parsed_frame_shallow_merges_data (st : ClientState)
    (msg : List (String × JValue)) (k : String) :
    List.lookup k (onMessage st (InboundFrame.parsed msg)).state.data =
      (match List.lookup k msg with
       | some v => some v
       | none => List.lookup k st.data) := by
  have hdata : (onMessage st (InboundFrame.parsed msg)).state.data = mergeData st.data msg := by
    cases h : dispatchToasts msg <;> simp [onMessage, h]
  rw [hdata]
  exact lookup_append_eq k msg st.data

end AdvancedServerPlatform
